import Mathlib

/-!
Verification of the flow-parser utility (`flow_parser.py`) against its
natural-language specification.

The development shallowly embeds the Python module: JSON/Python values become
the inductive `PyVal`; `dict.get`, truthiness, `or`-defaulting and iteration
are modelled explicitly; code that can raise is translated into the
`Except String` monad, where `.error` marks "this Python code raises an
exception here".  The filesystem, the environment and the external OpenAI
endpoints are modelled by an explicit `Env` record passed to the two
generators; their observable effects (external calls made, HTTP fetches,
files written, diagnostics printed) are returned in outcome records.
SHA-256 (used by `make_cache_key`) is implemented concretely on byte lists,
per FIPS 180-4, so cache keys are computable.
-/

/-- A Python value as produced by `json.load` (plus the values the script
itself builds): `None`, booleans, integers, strings, lists, and dicts with
string keys.  Dicts are association lists in insertion order; keys are
assumed unique, as they are in a real Python dict. -/
inductive PyVal where
  | noneV : PyVal
  | boolV : Bool → PyVal
  | intV : Int → PyVal
  | strV : String → PyVal
  | listV : List PyVal → PyVal
  | dictV : List (String × PyVal) → PyVal

/-- First-match lookup in an association list (keys are unique, so this is
Python's dict lookup). -/
def pyLookup : List (String × PyVal) → String → Option PyVal
  | [], _ => Option.none
  | (k, v) :: rest, key => if k = key then some v else pyLookup rest key

/-- Python truthiness (`bool(x)`): `None`, `False`, `0`, `""`, `[]`, and
an empty dict are falsy, everything else truthy. -/
def PyVal.truthy : PyVal → Bool
  | .noneV => false
  | .boolV b => b
  | .intV n => decide (n ≠ 0)
  | .strV s => decide (s ≠ "")
  | .listV xs => !xs.isEmpty
  | .dictV fs => !fs.isEmpty

/-- Python's `x or y`: `x` when truthy, else `y`. -/
def pyOr (x y : PyVal) : PyVal := if x.truthy then x else y

/-- Python's `x == "lit"` for a string literal. -/
def pyEqStr (v : PyVal) (s : String) : Bool :=
  match v with
  | .strV t => t = s
  | _ => false

/-- `v.get(k)`: on a dict, the stored value or `None` when the key is
absent (`json.load` maps a JSON `null` to `None` as well, so absent and
null coincide here, exactly as in the script); on any other value an
`AttributeError` is raised. -/
def pyGet (v : PyVal) (k : String) : Except String PyVal :=
  match v with
  | .dictV fs => .ok ((pyLookup fs k).getD .noneV)
  | _ => .error ("AttributeError: no attribute get (key " ++ k ++ ")")

/-- Total dict access (used by the spec-side definitions only): the stored
value, or `None` when the key is absent or the value is not a dict. -/
def dget (v : PyVal) (k : String) : PyVal :=
  match v with
  | .dictV fs => (pyLookup fs k).getD .noneV
  | _ => .noneV

/-- The field of a projected step item, when present (`Option.none` means
the key does not occur in the dict at all). -/
def item_field (v : PyVal) (k : String) : Option PyVal :=
  match v with
  | .dictV fs => pyLookup fs k
  | _ => Option.none

/-- Python iteration `for x in v`: lists yield their elements, strings
their one-character strings, dicts their keys (insertion order);
`None`/booleans/ints raise `TypeError`. -/
def pyIter (v : PyVal) : Except String (List PyVal) :=
  match v with
  | .listV xs => .ok xs
  | .strV s => .ok (s.toList.map (fun c => .strV (String.mk [c])))
  | .dictV fs => .ok (fs.map (fun p => PyVal.strV p.1))
  | _ => .error "TypeError: object is not iterable"

/-- `isinstance(v, dict)`. -/
def isDict : PyVal → Bool
  | .dictV _ => true
  | _ => false

/-- Python `str(v)` for the values interpolated into f-strings here: a
string is itself, `None` is `"None"`, booleans and integers print the
Python way; container reprs are elided to a fixed marker since the script
never interpolates containers on any path the spec describes. -/
def pyStrF : PyVal → String
  | .strV s => s
  | .noneV => "None"
  | .boolV true => "True"
  | .boolV false => "False"
  | .intV n => toString n
  | .listV _ => "<list>"
  | .dictV _ => "<dict>"

/-- The characters Python's `str.strip()` removes. -/
def isPySpace (c : Char) : Bool :=
  c = ' ' || c = '\t' || c = '\n' || c = '\x0d' || c = '\x0b' || c = '\x0c'

/-- Python's `s.strip()`: remove leading and trailing whitespace. -/
def pyStrip (s : String) : String :=
  String.mk (((s.toList.dropWhile isPySpace).reverse.dropWhile isPySpace).reverse)

/-- Python's `str | None` coalescing `x or ""` used on string results:
`None` becomes `""`. -/
def orEmpty (o : Option String) : String := o.getD ""

/-- Python's `sep.join(xs)` over a list: every element must be a string,
otherwise `TypeError`. -/
def pyJoin (sep : String) : List PyVal → Except String String
  | [] => .ok ""
  | [PyVal.strV s] => .ok s
  | PyVal.strV s :: x :: rest => do
      let r ← pyJoin sep (x :: rest)
      .ok (s ++ sep ++ r)
  | _ => .error "TypeError: sequence item: expected str instance"

/-- UTF-8 encoding of one character (scalar value), as `str.encode("utf-8")`
produces it. -/
def utf8Char (c : Char) : List Nat :=
  let n := c.toNat
  if n < 128 then [n]
  else if n < 2048 then [192 + n / 64, 128 + n % 64]
  else if n < 65536 then [224 + n / 4096, 128 + n / 64 % 64, 128 + n % 64]
  else [240 + n / 262144, 128 + n / 4096 % 64, 128 + n / 64 % 64, 128 + n % 64]

/-- `s.encode("utf-8")` as a byte list. -/
def utf8Encode (s : String) : List Nat :=
  (s.toList.map utf8Char).flatten

/- ### SHA-256 (FIPS 180-4), on `Nat` with explicit reduction mod 2^32 -/

/-- Reduce to a 32-bit word. -/
def w32 (n : Nat) : Nat := n % 4294967296

/-- Right rotation of a 32-bit word by `k` (for `x < 2^32`, `0 < k < 32`). -/
def rotr32 (k x : Nat) : Nat := x / 2 ^ k + x % 2 ^ k * 2 ^ (32 - k)

/-- Logical right shift. -/
def shr32 (k x : Nat) : Nat := x / 2 ^ k

/-- SHA-256 Σ₀. -/
def bsig0 (x : Nat) : Nat := rotr32 2 x ^^^ rotr32 13 x ^^^ rotr32 22 x

/-- SHA-256 Σ₁. -/
def bsig1 (x : Nat) : Nat := rotr32 6 x ^^^ rotr32 11 x ^^^ rotr32 25 x

/-- SHA-256 σ₀. -/
def ssig0 (x : Nat) : Nat := rotr32 7 x ^^^ rotr32 18 x ^^^ shr32 3 x

/-- SHA-256 σ₁. -/
def ssig1 (x : Nat) : Nat := rotr32 17 x ^^^ rotr32 19 x ^^^ shr32 10 x

/-- SHA-256 Ch, with 32-bit complement written as xor with `2^32 - 1`. -/
def chFun (x y z : Nat) : Nat := (x &&& y) ^^^ ((x ^^^ 4294967295) &&& z)

/-- SHA-256 Maj. -/
def majFun (x y z : Nat) : Nat := (x &&& y) ^^^ (x &&& z) ^^^ (y &&& z)

/-- The 64 SHA-256 round constants (FIPS 180-4, written in decimal: the
development reads every 32-bit word as a plain `Nat`). -/
def sha256K : List Nat :=
  [1116352408, 1899447441, 3049323471, 3921009573,
   961987163, 1508970993, 2453635748, 2870763221,
   3624381080, 310598401, 607225278, 1426881987,
   1925078388, 2162078206, 2614888103, 3248222580,
   3835390401, 4022224774, 264347078, 604807628,
   770255983, 1249150122, 1555081692, 1996064986,
   2554220882, 2821834349, 2952996808, 3210313671,
   3336571891, 3584528711, 113926993, 338241895,
   666307205, 773529912, 1294757372, 1396182291,
   1695183700, 1986661051, 2177026350, 2456956037,
   2730485921, 2820302411, 3259730800, 3345764771,
   3516065817, 3600352804, 4094571909, 275423344,
   430227734, 506948616, 659060556, 883997877,
   958139571, 1322822218, 1537002063, 1747873779,
   1955562222, 2024104815, 2227730452, 2361852424,
   2428436474, 2756734187, 3204031479, 3329325298]

/-- Message-schedule extension: append `n` further words to the 16 words of
the block. -/
def sha256Extend : List Nat → Nat → List Nat
  | ws, 0 => ws
  | ws, n + 1 =>
      let len := ws.length
      let w := w32 (ssig1 (ws.getD (len - 2) 0) + ws.getD (len - 7) 0 +
                    ssig0 (ws.getD (len - 15) 0) + ws.getD (len - 16) 0)
      sha256Extend (ws ++ [w]) n

/-- The eight 32-bit working variables / hash words. -/
structure Hash8 where
  v0 : Nat
  v1 : Nat
  v2 : Nat
  v3 : Nat
  v4 : Nat
  v5 : Nat
  v6 : Nat
  v7 : Nat

/-- One SHA-256 compression round, consuming a (round constant, schedule
word) pair. -/
def sha256Round (s : Hash8) (kw : Nat × Nat) : Hash8 :=
  let t1 := w32 (s.v7 + bsig1 s.v4 + chFun s.v4 s.v5 s.v6 + kw.1 + kw.2)
  let t2 := w32 (bsig0 s.v0 + majFun s.v0 s.v1 s.v2)
  ⟨w32 (t1 + t2), s.v0, s.v1, s.v2, w32 (s.v3 + t1), s.v4, s.v5, s.v6⟩

/-- Compress one 16-word block into the running hash. -/
def sha256Compress (s : Hash8) (block : List Nat) : Hash8 :=
  let ws := sha256Extend block 48
  let r := (sha256K.zip ws).foldl sha256Round s
  ⟨w32 (s.v0 + r.v0), w32 (s.v1 + r.v1), w32 (s.v2 + r.v2), w32 (s.v3 + r.v3),
   w32 (s.v4 + r.v4), w32 (s.v5 + r.v5), w32 (s.v6 + r.v6), w32 (s.v7 + r.v7)⟩

/-- SHA-256 padding: `0x80`, zeros to 56 mod 64, then the bit length as
eight big-endian bytes. -/
def sha256Pad (msg : List Nat) : List Nat :=
  let l := msg.length
  let zeros := (119 - l % 64) % 64
  let bl := 8 * l
  msg ++ [128] ++ List.replicate zeros 0 ++
    [bl / 2 ^ 56 % 256, bl / 2 ^ 48 % 256, bl / 2 ^ 40 % 256, bl / 2 ^ 32 % 256,
     bl / 2 ^ 24 % 256, bl / 2 ^ 16 % 256, bl / 2 ^ 8 % 256, bl % 256]

/-- Big-endian 4-byte groups to 32-bit words. -/
def bytesToWords : List Nat → List Nat
  | a :: b :: c :: d :: rest => (a * 16777216 + b * 65536 + c * 256 + d) :: bytesToWords rest
  | _ => []

/-- Split a word list into 16-word blocks (padding guarantees a multiple
of 16; a short trailing group cannot occur and is dropped). -/
def chunkWords : List Nat → List (List Nat)
  | w0 :: w1 :: w2 :: w3 :: w4 :: w5 :: w6 :: w7 ::
    w8 :: w9 :: w10 :: w11 :: w12 :: w13 :: w14 :: w15 :: rest =>
      [w0, w1, w2, w3, w4, w5, w6, w7, w8, w9, w10, w11, w12, w13, w14, w15] ::
        chunkWords rest
  | _ => []

/-- The SHA-256 initial hash value. -/
def sha256Init : Hash8 :=
  ⟨1779033703, 3144134277, 1013904242, 2773480762,
   1359893119, 2600822924, 528734635, 1541459225⟩

/-- The SHA-256 digest of a byte list, as the eight final hash words. -/
def sha256Words (msg : List Nat) : Hash8 :=
  (chunkWords (bytesToWords (sha256Pad msg))).foldl sha256Compress sha256Init

/-- Lower-case hexadecimal digit. -/
def hexDigitChar (n : Nat) : Char :=
  if n < 10 then Char.ofNat (48 + n) else Char.ofNat (87 + n)

/-- A word as four big-endian bytes. -/
def wordToBytes (w : Nat) : List Nat :=
  [w / 16777216 % 256, w / 65536 % 256, w / 256 % 256, w % 256]

/-- A byte as two lower-case hex characters. -/
def byteHexChars (b : Nat) : List Char :=
  [hexDigitChar (b / 16 % 16), hexDigitChar (b % 16)]

/-- The character list of `hashlib.sha256(msg).hexdigest()`. -/
def sha256HexChars (msg : List Nat) : List Char :=
  let s := sha256Words msg
  (([s.v0, s.v1, s.v2, s.v3, s.v4, s.v5, s.v6, s.v7].map wordToBytes).flatten.map
    byteHexChars).flatten

/-- `hashlib.sha256(msg).hexdigest()` as a string. -/
def sha256Hex (msg : List Nat) : String := String.mk (sha256HexChars msg)

/-- `make_cache_key(text)`: the first 16 characters of the SHA-256 hex
digest of the UTF-8 encoding of the payload.  The source's `(text or "")`
is the identity on the `str` arguments every call site passes (it only
re-maps `None`, and `"" or ""` is `""`). -/
def make_cache_key (text : String) : String :=
  String.mk ((sha256HexChars (utf8Encode text)).take 16)

set_option maxRecDepth 40000 in
/-- Sanity vector: SHA-256 of the empty message. -/
theorem sha256_empty_vector :
    sha256Hex [] =
      "e3b0c44298fc1c149afbf4c8996fb92427ae41e4649b934ca495991b7852b855" := by
  rfl

set_option maxRecDepth 40000 in
/-- Sanity vector: SHA-256 of `"abc"`. -/
theorem sha256_abc_vector :
    sha256Hex (utf8Encode "abc") =
      "ba7816bf8f01cfea414140de5dae2223b00361a396177a9cb410ff61f20015ad" := by
  rfl

/- ### Flow Loader (`load_flow`) -/

/-- What the filesystem yields for a path opened for reading: the file is
absent (`FileNotFoundError`), some other I/O error occurs, or the file's
text is read. -/
inductive FileOutcome where
  | notFound : FileOutcome
  | ioError : String → FileOutcome
  | content : String → FileOutcome

/-- Loader result: the parsed document (or none) plus the diagnostic
printed to stderr (or none). -/
structure LoadResult where
  result : Option PyVal
  diagnostic : Option String

/-- `load_flow(path)`.  The filesystem is the function `fs`; the `json`
module (an external collaborator) is the function `parse`, whose `.error`
carries `str(e)` of the `json.JSONDecodeError` — message and positional
detail.  Each `except` arm of the source becomes one branch; totality of
this definition is the source's "never raises past its boundary". -/
def load_flow (fs : String → FileOutcome) (parse : String → Except String PyVal)
    (path : String) : LoadResult :=
  match fs path with
  | .notFound => ⟨Option.none, some ("Error: file not found: " ++ path)⟩
  | .ioError m => ⟨Option.none, some ("Error: failed to read " ++ path ++ ": " ++ m)⟩
  | .content text =>
      match parse text with
      | .error e => ⟨Option.none, some ("Error: invalid JSON in " ++ path ++ ": " ++ e)⟩
      | .ok doc => ⟨some doc, Option.none⟩

/- ### Action Deriver (`derive_actions`) -/

/-- The loop body of `derive_actions`, over the already-materialised step
list: builds the display lines and the raw click-text list. -/
def derive_actions_loop : List PyVal → Except String (List String × List PyVal)
  | [] => .ok ([], [])
  | s :: rest => do
      let step_type ← pyGet s "type"
      let click_text ← pyGet s "clickText"
      let pt ← pyGet s "pageTitle"
      let tt ← pyGet s "title"
      let title := pyOr pt tt
      let (lines, acts) ← derive_actions_loop rest
      if pyEqStr step_type "CHAPTER" && title.truthy then
        .ok (("CHAPTER: " ++ pyStrF title) :: lines, acts)
      else if click_text.truthy then
        .ok ((pyStrF step_type ++ ": " ++ pyStrF click_text) :: lines,
             click_text :: acts)
      else
        .ok ((if title.truthy then pyStrF step_type ++ ": " ++ pyStrF title
              else pyStrF step_type) :: lines, acts)

/-- `derive_actions(report)`: `steps = report.get("steps") or []`, then the
loop. -/
def derive_actions (report : PyVal) : Except String (List String × List PyVal) := do
  let sv ← pyGet report "steps"
  let steps ← pyIter (pyOr sv (.listV []))
  derive_actions_loop steps

/- ### Report Builder (`extract_meta`, `extract_chapters`, `extract_steps`,
`build_report`) -/

/-- `extract_meta(flow)`: the six scalar fields, absent ones as `None`. -/
def extract_meta (flow : PyVal) : Except String PyVal := do
  let name ← pyGet flow "name"
  let useCase ← pyGet flow "useCase"
  let schemaVersion ← pyGet flow "schemaVersion"
  let description ← pyGet flow "description"
  let status ← pyGet flow "status"
  let created ← pyGet flow "created"
  .ok (.dictV [("name", name), ("useCase", useCase),
               ("schemaVersion", schemaVersion), ("description", description),
               ("status", status), ("created", created)])

/-- The loop of `extract_chapters` over the materialised step list. -/
def extract_chapters_loop : List PyVal → Except String (List PyVal)
  | [] => .ok []
  | s :: rest => do
      let t ← pyGet s "type"
      if pyEqStr t "CHAPTER" then do
        let idv ← pyGet s "id"
        let ti ← pyGet s "title"
        let su ← pyGet s "subtitle"
        let r ← extract_chapters_loop rest
        .ok (.dictV [("id", idv), ("title", ti), ("subtitle", su)] :: r)
      else
        extract_chapters_loop rest

/-- `extract_chapters(steps)`: `for s in steps or []`, keep CHAPTER steps
as `{id, title, subtitle}`. -/
def extract_chapters (steps : PyVal) : Except String (List PyVal) := do
  let l ← pyIter (pyOr steps (.listV []))
  extract_chapters_loop l

/-- The hotspot loop of `extract_steps`: collect `h.get("label")` from the
dict entries whose label is truthy. -/
def collect_labels (hs : List PyVal) : List PyVal :=
  hs.filterMap (fun h =>
    match h with
    | .dictV fs =>
        let l := (pyLookup fs "label").getD .noneV
        if l.truthy then some l else Option.none
    | _ => Option.none)

/-- The body of `extract_steps`' loop for one step `s`: the projected item,
in the source's insertion order. -/
def step_item (s : PyVal) : Except String PyVal := do
  let idv ← pyGet s "id"
  let tv ← pyGet s "type"
  if pyEqStr tv "IMAGE" || pyEqStr tv "VIDEO" then do
    let pageRaw ← pyGet s "pageContext"
    let page := pyOr pageRaw (.dictV [])
    let clickRaw ← pyGet s "clickContext"
    let click := pyOr clickRaw (.dictV [])
    let hotspotsRaw ← pyGet s "hotspots"
    let pt ← pyGet page "title"
    let pu ← pyGet page "url"
    let clickFields ←
      if click.truthy then do
        let ct ← pyGet click "text"
        let cs ← pyGet click "cssSelector"
        let ce ← pyGet click "elementType"
        pure [("clickText", ct), ("clickSelector", cs), ("clickElementType", ce)]
      else
        pure ([] : List (String × PyVal))
    let hotspots ← pyIter (pyOr hotspotsRaw (.listV []))
    let labels := collect_labels hotspots
    let labelField := if labels.isEmpty then ([] : List (String × PyVal))
                      else [("hotspotLabels", PyVal.listV labels)]
    .ok (.dictV ([("id", idv), ("type", tv), ("pageTitle", pt), ("pageUrl", pu)]
                 ++ clickFields ++ labelField))
  else if pyEqStr tv "CHAPTER" then do
    let ti ← pyGet s "title"
    let su ← pyGet s "subtitle"
    .ok (.dictV [("id", idv), ("type", tv), ("title", ti), ("subtitle", su)])
  else
    .ok (.dictV [("id", idv), ("type", tv)])

/-- The loop of `extract_steps` over the materialised step list: one item
per step, in order. -/
def extract_steps_loop : List PyVal → Except String (List PyVal)
  | [] => .ok []
  | s :: rest => do
      let item ← step_item s
      let r ← extract_steps_loop rest
      .ok (item :: r)

/-- `extract_steps(steps)`: `for s in steps or []`, project each step. -/
def extract_steps (steps : PyVal) : Except String (List PyVal) := do
  let l ← pyIter (pyOr steps (.listV []))
  extract_steps_loop l

/-- `build_report(flow)`: `{meta, chapters, steps}` with
`steps = flow.get("steps") or []`. -/
def build_report (flow : PyVal) : Except String PyVal := do
  let sv ← pyGet flow "steps"
  let steps := pyOr sv (.listV [])
  let meta ← extract_meta flow
  let chapters ← extract_chapters steps
  let stepsOut ← extract_steps steps
  .ok (.dictV [("meta", meta), ("chapters", .listV chapters),
               ("steps", .listV stepsOut)])

/- ### Output Writer (`write_summary_to_file`) -/

/-- The text `write_summary_to_file` puts in the file:
`(summary_text or "").strip() + "\n"` (the `or ""` is the identity on the
strings the callers pass). -/
def written_summary_content (summary_text : String) : String :=
  pyStrip summary_text ++ "\n"

/- ### Cache paths -/

/-- `get_cache_dir()` joined with the summary entry name:
`.cache/summary-<key>.md` for the given request payload. -/
def summary_cache_path (payload : String) : String :=
  ".cache/summary-" ++ make_cache_key payload ++ ".md"

/-- `.cache/image-<key>.png` for the given prompt (the payload hashed is
the prompt plus newline plus the fixed model identifier). -/
def image_cache_path (prompt : String) : String :=
  ".cache/image-" ++ make_cache_key (prompt ++ "\n" ++ "gpt-image-1") ++ ".png"

/- ### The external world of the two generators -/

/-- One data item of the image response: the tagged base64-or-URL payload
(`b64_json` / `url` attributes; the dict-shaped fallback of the source
reads the same two fields, so one record models both shapes). -/
structure ImageDatum where
  b64_json : Option String
  url : Option String

/-- An HTTP response for `requests.get`: status code and body bytes. -/
structure HttpResponse where
  status : Nat
  body : List Nat

/-- The process environment and the external collaborators of the two
generators.  `clientAvailable` is "`get_openai_client()` returned a
client" (API key set and import succeeded); `cacheEnabled` is
`is_cache_enabled()`; `textCache`/`binCache` give the readable content of
a cache file, `Option.none` when the file is absent (an existing but
unreadable entry behaves like an absent one: every cache read/copy is
wrapped in `try/except` that falls through to the live call).
`chatResponse` is the outcome of `client.chat.completions.create`
(`.error` = the call raised; `.ok Option.none` = content was `None`);
`imageResponse` is the outcome of `client.images.generate` including the
`response.data[0]` access; `http url timeout` is the outcome of
`requests.get` (`.error` = transport exception). -/
structure Env where
  clientAvailable : Bool
  cacheEnabled : Bool
  textCache : String → Option String
  binCache : String → Option (List Nat)
  chatResponse : Except String (Option String)
  imageResponse : Except String ImageDatum
  http : String → Nat → Except String HttpResponse

/- ### Narrative Generator (`generate_openai_summary`) -/

/-- Observable outcome of `generate_openai_summary`: the returned value,
how many external text-generation calls were made, the cache write-through
(path, content) if any, and the diagnostic printed by the function
itself. -/
structure TextGenOutcome where
  result : Option String
  externalCalls : Nat
  cacheWrite : Option (String × String)
  diagnostic : Option String

/-- The request payload hashed for the summary cache key:
`(meta.get('name') or '') + "\n" + joined_actions + "\n" + "gpt-4o-mini"`
with `joined_actions = "\n".join(action_lines[:25])`.  A non-string truthy
`name` makes the `+` raise `TypeError` (caught by the function's outer
`except`). -/
def summary_payload (report : PyVal) : Except String String := do
  let metaRaw ← pyGet report "meta"
  let meta := pyOr metaRaw (.dictV [])
  let pair ← derive_actions report
  let joined := String.intercalate "\n" (pair.1.take 25)
  let nameV ← pyGet meta "name"
  let name ←
    match pyOr nameV (.strV "") with
    | .strV s => pure s
    | _ => Except.error "TypeError: can only concatenate str to str"
  .ok (name ++ "\n" ++ joined ++ "\n" ++ "gpt-4o-mini")

/-- `generate_openai_summary(report)`.  Branches, in source order: no
client → `None`; any exception while building the payload → caught by the
outer `except` → `None`; cache enabled and entry readable → the entry's
text, `.strip()`ped, no external call; otherwise one external call, whose
transport failure → `None`; empty/whitespace-only content → diagnostic and
`None`; else the stripped summary, written through to the cache when
enabled. -/
def generate_openai_summary (env : Env) (report : PyVal) : TextGenOutcome :=
  if env.clientAvailable = false then
    ⟨Option.none, 0, Option.none, Option.none⟩
  else
    match summary_payload report with
    | .error e => ⟨Option.none, 0, Option.none,
                   some ("Error: OpenAI request failed: " ++ e)⟩
    | .ok payload =>
        let cachePath := summary_cache_path payload
        match (if env.cacheEnabled then env.textCache cachePath else Option.none) with
        | some content => ⟨some (pyStrip content), 0, Option.none, Option.none⟩
        | Option.none =>
            match env.chatResponse with
            | .error e => ⟨Option.none, 1, Option.none,
                           some ("Error: OpenAI request failed: " ++ e)⟩
            | .ok contentOpt =>
                let summary := pyStrip (orEmpty contentOpt)
                if summary = "" then
                  ⟨Option.none, 1, Option.none,
                   some "Error: received empty summary from OpenAI."⟩
                else
                  ⟨some summary, 1,
                   (if env.cacheEnabled then some (cachePath, summary) else Option.none),
                   Option.none⟩

/- ### Image Generator (`generate_social_image`) -/

/-- Observable outcome of `generate_social_image`: the boolean result, how
many external image-generation calls were made, the HTTP fetches performed
(url, timeout), the binary files written (path, bytes) in order, and the
diagnostic printed. -/
structure ImageGenOutcome where
  success : Bool
  genCalls : Nat
  fetches : List (String × Nat)
  writes : List (String × List Nat)
  diagnostic : Option String

/-- Python's `base64.b64decode` on a str, close to CPython's lenient mode:
non-ASCII input raises; characters outside the alphabet are discarded;
what remains must be properly '='-padded groups of four, decoded 4 → 3
bytes (padding only at the end, a simplification that no claim
exercises). -/
def b64CharVal (c : Char) : Option Nat :=
  if 'A' ≤ c && c ≤ 'Z' then some (c.toNat - 65)
  else if 'a' ≤ c && c ≤ 'z' then some (c.toNat - 71)
  else if '0' ≤ c && c ≤ '9' then some (c.toNat + 4)
  else if c = '+' then some 62
  else if c = '/' then some 63
  else Option.none

/-- Decode successive 4-character base64 groups. -/
def b64Quads : List Char → Except String (List Nat)
  | [] => .ok []
  | a :: b :: c :: d :: rest =>
      match b64CharVal a, b64CharVal b with
      | some va, some vb =>
          if c = '=' then
            if d = '=' && rest.isEmpty then .ok [va * 4 + vb / 16]
            else .error "binascii.Error: Invalid base64-encoded string"
          else
            match b64CharVal c with
            | some vc =>
                if d = '=' then
                  if rest.isEmpty then
                    .ok [va * 4 + vb / 16, vb % 16 * 16 + vc / 4]
                  else .error "binascii.Error: Invalid base64-encoded string"
                else
                  match b64CharVal d with
                  | some vd => do
                      let t ← b64Quads rest
                      .ok ((va * 4 + vb / 16) :: (vb % 16 * 16 + vc / 4) ::
                           (vc % 4 * 64 + vd) :: t)
                  | Option.none => .error "binascii.Error: Invalid base64-encoded string"
            | Option.none => .error "binascii.Error: Invalid base64-encoded string"
      | _, _ => .error "binascii.Error: Invalid base64-encoded string"
  | _ => .error "binascii.Error: Incorrect padding"

/-- `base64.b64decode(s)` for a `str` argument. -/
def pyB64decode (s : String) : Except String (List Nat) :=
  if s.toList.any (fun c => 128 ≤ c.toNat) then
    .error "ValueError: string argument should contain only ASCII characters"
  else
    b64Quads (s.toList.filter (fun c => (b64CharVal c).isSome || c = '='))

/-- The fixed image prompt built from the report:
`name = meta.get("name") or "User Flow"`, up to five raw click texts
joined with `", "` (or the fixed fallback phrase when there are none),
interpolated into the template. -/
def image_prompt (report : PyVal) : Except String String := do
  let metaRaw ← pyGet report "meta"
  let meta := pyOr metaRaw (.dictV [])
  let nameV ← pyGet meta "name"
  let name := pyOr nameV (.strV "User Flow")
  let pair ← derive_actions report
  let actions := pair.2
  let actions_summary ←
    if !actions.isEmpty then pyJoin ", " (actions.take 5)
    else pure "browsing and interacting"
  .ok ("Create a vibrant, professional social media graphic for a product demo titled '"
       ++ pyStrF name ++ "'. "
       ++ "The visual should represent a compilation of actions like: "
       ++ actions_summary ++ ". "
       ++ "Use modern UI/UX design elements, clean layout, and engaging colors. "
       ++ "Style: matching the flow's theme, professional, tech-focused. No text overlay needed.")

/-- `generate_social_image(report, out_path)`.  Branches, in source order:
no client → `False`; an exception while building the prompt → caught →
`False`; cache enabled and entry readable → copy the cached bytes to
`out_path`, report success, no external call; otherwise one external call;
then the tagged payload: truthy `b64_json` → decode (failure → `False`)
and write the bytes to `out_path` (plus write-through to the cache when
enabled); else truthy `url` → `requests.get(url, timeout=30)` with
`raise_for_status` (4xx/5xx) — failure → `False`, success → write the
body bytes verbatim to `out_path` (plus cache write-through); neither →
the distinct "no data" diagnostic and `False`. -/
def generate_social_image (env : Env) (report : PyVal) (out_path : String) :
    ImageGenOutcome :=
  if env.clientAvailable = false then
    ⟨false, 0, [], [], Option.none⟩
  else
    match image_prompt report with
    | .error e => ⟨false, 0, [], [],
                   some ("Error: image generation failed: " ++ e)⟩
    | .ok prompt =>
        let cachePath := image_cache_path prompt
        match (if env.cacheEnabled then env.binCache cachePath else Option.none) with
        | some bytes => ⟨true, 0, [], [(out_path, bytes)], Option.none⟩
        | Option.none =>
            match env.imageResponse with
            | .error e => ⟨false, 1, [], [],
                           some ("Error: image generation failed: " ++ e)⟩
            | .ok datum =>
                if (orEmpty datum.b64_json) ≠ "" then
                  match pyB64decode (orEmpty datum.b64_json) with
                  | .error e => ⟨false, 1, [], [],
                                 some ("Error: failed to decode base64 image: " ++ e)⟩
                  | .ok bytes =>
                      ⟨true, 1, [],
                       (out_path, bytes) ::
                         (if env.cacheEnabled then [(cachePath, bytes)] else []),
                       Option.none⟩
                else if (orEmpty datum.url) ≠ "" then
                  let url := orEmpty datum.url
                  match env.http url 30 with
                  | .error e => ⟨false, 1, [(url, 30)], [],
                                 some ("Error: failed to download image: " ++ e)⟩
                  | .ok resp =>
                      if 400 ≤ resp.status && resp.status < 600 then
                        ⟨false, 1, [(url, 30)], [],
                         some ("Error: failed to download image: HTTPError " ++
                               toString resp.status)⟩
                      else
                        ⟨true, 1, [(url, 30)],
                         (out_path, resp.body) ::
                           (if env.cacheEnabled then [(cachePath, resp.body)] else []),
                         Option.none⟩
                else
                  ⟨false, 1, [], [], some "Error: image generation returned no data."⟩

/- ### The `__main__` summary step -/

/-- The placeholder narrative of the entry point. -/
def placeholder_summary : String :=
  "# Flow Summary\n\nOpenAI summary not available. See stderr for details."

/-- What the entry point passes to `write_summary_to_file`: the generated
summary when truthy (`if summary:`), else the placeholder. -/
def main_summary_text (summary : Option String) : String :=
  match summary with
  | some s => if s ≠ "" then s else placeholder_summary
  | Option.none => placeholder_summary

/- ### Spec-side definitions (written from the specification's words, to be
compared with the definitions above, which are translated from the source) -/

/-- Spec, §4.2: "collect `label` from every hotspot object that has a
non-empty `label`" — the input-order sublist of dict hotspots with truthy
label, projected to those labels. -/
def spec_hotspot_labels (hs : List PyVal) : List PyVal :=
  (hs.filter (fun h => isDict h && (dget h "label").truthy)).map
    (fun h => dget h "label")

/-- Spec, §4.3: the display string of one step — `"CHAPTER: <title>"` when
a chapter step has a title, else `"<type>: <clickText>"` when click text
exists, else `"<type>: <title>"` when a title-like field exists, else the
bare type. -/
def spec_display_line (s : PyVal) : String :=
  let t := dget s "type"
  let ct := dget s "clickText"
  let ti := pyOr (dget s "pageTitle") (dget s "title")
  if pyEqStr t "CHAPTER" && ti.truthy then "CHAPTER: " ++ pyStrF ti
  else if ct.truthy then pyStrF t ++ ": " ++ pyStrF ct
  else if ti.truthy then pyStrF t ++ ": " ++ pyStrF ti
  else pyStrF t

/-- Spec, §4.3: the ordered raw click-text sequence, chapter steps
excluded. -/
def spec_click_texts (steps : List PyVal) : List PyVal :=
  (steps.filter (fun s =>
    !pyEqStr (dget s "type") "CHAPTER" && (dget s "clickText").truthy)).map
    (fun s => dget s "clickText")

/-- Spec, §3: one chapter entry — `{id, title, subtitle}`. -/
def spec_chapter_entry (s : PyVal) : PyVal :=
  .dictV [("id", dget s "id"), ("title", dget s "title"),
          ("subtitle", dget s "subtitle")]

/-- Spec, §4.2: the chapter list — input order restricted to CHAPTER
steps, each projected to `{id, title, subtitle}`. -/
def spec_chapters (steps : List PyVal) : List PyVal :=
  (steps.filter (fun s => pyEqStr (dget s "type") "CHAPTER")).map
    spec_chapter_entry

/- ### Helper lemmas -/

/-- `for x in (steps or [])` over a real list materialises exactly that
list (empty lists are falsy and default to the empty list). -/
theorem pyIter_pyOr_listV (xs : List PyVal) :
    pyIter (pyOr (.listV xs) (.listV [])) = .ok xs := by
  cases xs <;> rfl

/-- `collect_labels` (the source's hotspot loop) computes the spec's
filter-then-project list. -/
theorem collect_labels_eq_spec (hs : List PyVal) :
    collect_labels hs = spec_hotspot_labels hs := by
  induction hs with
  | nil => rfl
  | cons h t ih =>
      unfold collect_labels spec_hotspot_labels at ih ⊢
      cases h with
      | dictV fs =>
          by_cases htr : ((pyLookup fs "label").getD PyVal.noneV).truthy = true
          · simp only [List.filterMap_cons, List.filter_cons, isDict, dget,
              htr, if_true, Bool.true_and, List.map_cons, ih]
          · simp only [List.filterMap_cons, List.filter_cons, isDict, dget,
              Bool.true_and, ih]
            rw [if_neg htr, if_neg (by simpa using htr)]
      | noneV => simpa [List.filterMap_cons, List.filter_cons, isDict] using ih
      | boolV b => simpa [List.filterMap_cons, List.filter_cons, isDict] using ih
      | intV n => simpa [List.filterMap_cons, List.filter_cons, isDict] using ih
      | strV s => simpa [List.filterMap_cons, List.filter_cons, isDict] using ih
      | listV xs => simpa [List.filterMap_cons, List.filter_cons, isDict] using ih

/-- A lower-case hexadecimal digit as a character predicate. -/
def isHexDigitChar (c : Char) : Bool :=
  ('0' ≤ c && c ≤ '9') || ('a' ≤ c && c ≤ 'f')

/-- `hexDigitChar` of a reduced nibble is a hexadecimal digit. -/
theorem isHexDigitChar_hexDigitChar_mod (n : Nat) :
    isHexDigitChar (hexDigitChar (n % 16)) = true := by
  have h : n % 16 < 16 := Nat.mod_lt _ (by norm_num)
  generalize n % 16 = m at h
  interval_cases m <;> decide

/-- Both characters of `byteHexChars` are hexadecimal digits. -/
theorem isHexDigitChar_byteHexChars (b : Nat) :
    ∀ c ∈ byteHexChars b, isHexDigitChar c = true := by
  intro c hc
  simp [byteHexChars] at hc
  rcases hc with rfl | rfl <;> exact isHexDigitChar_hexDigitChar_mod _

/-- Flattening byte-to-hex doubles the length. -/
theorem length_flatten_map_byteHexChars (l : List Nat) :
    ((l.map byteHexChars).flatten).length = 2 * l.length := by
  induction l with
  | nil => simp
  | cons a t ih => simp [byteHexChars, ih]; omega

/-- A SHA-256 hex digest has 64 characters. -/
theorem sha256HexChars_length (msg : List Nat) :
    (sha256HexChars msg).length = 64 := by
  unfold sha256HexChars
  rw [length_flatten_map_byteHexChars]
  simp [wordToBytes]

/-- Every character of a SHA-256 hex digest is a hexadecimal digit. -/
theorem sha256HexChars_hex (msg : List Nat) :
    ∀ c ∈ sha256HexChars msg, isHexDigitChar c = true := by
  intro c hc
  unfold sha256HexChars at hc
  rw [List.mem_flatten] at hc
  obtain ⟨bh, hbh, hcbh⟩ := hc
  rw [List.mem_map] at hbh
  obtain ⟨b, _, rfl⟩ := hbh
  exact isHexDigitChar_byteHexChars b c hcbh

/- ### Claim C5 — cache key derivation -/

/-- C5: `make_cache_key` is the deterministic function taking a payload to
the first 16 hexadecimal characters of the SHA-256 hash of its UTF-8
encoding; identical payloads yield the identical key. -/
theorem C5_cache_key_first16_sha256 (s : String) :
    make_cache_key s = String.mk ((sha256HexChars (utf8Encode s)).take 16)
    ∧ (make_cache_key s).length = 16
    ∧ (∀ c ∈ (make_cache_key s).toList, isHexDigitChar c = true)
    ∧ (∀ t : String, s = t → make_cache_key s = make_cache_key t) := by
  refine ⟨rfl, ?_, ?_, ?_⟩
  · show (List.take 16 (sha256HexChars (utf8Encode s))).length = 16
    rw [List.length_take, sha256HexChars_length]
    decide
  · intro c hc
    have hc' : c ∈ (sha256HexChars (utf8Encode s)).take 16 := hc
    exact sha256HexChars_hex _ c (List.take_subset _ _ hc')
  · intro t h
    rw [h]

set_option maxRecDepth 40000 in
/-- Witness for C5 at the payload `"abc"`: the key is the 16-character
prefix of the `"abc"` digest vector, and it is 16 characters long. -/
theorem C5_cache_key_first16_sha256_witness :
    make_cache_key "abc" = "ba7816bf8f01cfea"
    ∧ (make_cache_key "abc").length = 16
    ∧ make_cache_key "abc" = make_cache_key "abc" := by
  refine ⟨by rfl, (C5_cache_key_first16_sha256 "abc").2.1,
          (C5_cache_key_first16_sha256 "abc").2.2.2 "abc" rfl⟩

/- ### Claim C6 — the Flow Loader's failure handling -/

/-- C6: `load_flow` never raises past its boundary — a missing file, a
malformed JSON document and any other I/O error each yield the null
result together with a category-specific diagnostic, the JSON diagnostic
carrying the parser's detail `e` verbatim; a document is returned exactly
when the file was read and parsed. -/
theorem C6_load_flow_failures (fs : String → FileOutcome)
    (parse : String → Except String PyVal) (path : String) :
    (∀ doc, (load_flow fs parse path).result = some doc →
       ∃ text, fs path = .content text ∧ parse text = .ok doc)
    ∧ (fs path = .notFound →
        load_flow fs parse path =
          ⟨Option.none, some ("Error: file not found: " ++ path)⟩)
    ∧ (∀ m, fs path = .ioError m →
        load_flow fs parse path =
          ⟨Option.none, some ("Error: failed to read " ++ path ++ ": " ++ m)⟩)
    ∧ (∀ text e, fs path = .content text → parse text = .error e →
        load_flow fs parse path =
          ⟨Option.none, some ("Error: invalid JSON in " ++ path ++ ": " ++ e)⟩) := by
  refine ⟨?_, ?_, ?_, ?_⟩
  · intro doc h
    unfold load_flow at h
    cases hfs : fs path with
    | notFound => rw [hfs] at h; simp at h
    | ioError m => rw [hfs] at h; simp at h
    | content text =>
        rw [hfs] at h
        simp at h
        cases hp : parse text with
        | error e => rw [hp] at h; simp at h
        | ok d => rw [hp] at h; simp at h; rw [h] at hp; exact ⟨text, rfl, hp⟩
  · intro h; unfold load_flow; rw [h]
  · intro m h; unfold load_flow; rw [h]
  · intro text e h hp; unfold load_flow; rw [h]; simp [hp]

/-- Witness for C6: a filesystem where `"flow.json"` is missing produces
the null document and the "file not found" diagnostic. -/
theorem C6_load_flow_failures_witness :
    load_flow (fun _ => FileOutcome.notFound) (fun _ => .ok .noneV) "flow.json" =
      ⟨Option.none, some "Error: file not found: flow.json"⟩ := by
  exact (C6_load_flow_failures (fun _ => FileOutcome.notFound)
    (fun _ => .ok .noneV) "flow.json").2.1 rfl

/-- `page.get(k)` and `click.get(k)` succeed whenever the raw context value
is falsy (defaulted to `{}`) or itself a dict. -/
theorem pyGet_pyOr_emptyDict (v : PyVal) (k : String)
    (h : v.truthy = false ∨ ∃ fs, v = PyVal.dictV fs) :
    pyGet (pyOr v (.dictV [])) k = .ok (dget (pyOr v (.dictV [])) k) := by
  rcases h with h | ⟨fs, rfl⟩
  · simp [pyOr, h, pyGet, dget, pyLookup]
  · by_cases htr : (PyVal.dictV fs).truthy = true <;>
      simp [pyOr, htr, pyGet, dget, pyLookup]

/- ### Claim C3 — hotspot label projection -/

/-- C3: for a step of type IMAGE or VIDEO, the projected item's
`hotspotLabels` is, per the spec's words, the in-order list of labels of
exactly those hotspot objects whose label is non-empty
(`spec_hotspot_labels`), and the key is present in the item only when
that list is non-empty. -/
theorem C3_hotspot_labels_projection (t : String) (idv pc cc : PyVal)
    (hs : List PyVal)
    (ht : t = "IMAGE" ∨ t = "VIDEO")
    (hpc : pc.truthy = false ∨ ∃ pfs, pc = PyVal.dictV pfs)
    (hcc : cc.truthy = false ∨ ∃ cfs, cc = PyVal.dictV cfs) :
    ∃ item, extract_steps (.listV [PyVal.dictV
        [("id", idv), ("type", .strV t), ("pageContext", pc),
         ("clickContext", cc), ("hotspots", .listV hs)]]) = .ok [item]
      ∧ item_field item "hotspotLabels" =
          (if (spec_hotspot_labels hs).isEmpty then Option.none
           else some (.listV (spec_hotspot_labels hs))) := by
  have hcl := collect_labels_eq_spec hs
  have htv : (pyEqStr (PyVal.strV t) "IMAGE" || pyEqStr (PyVal.strV t) "VIDEO") = true := by
    rcases ht with rfl | rfl <;> rfl
  have h1 : pyGet (PyVal.dictV
      [("id", idv), ("type", .strV t), ("pageContext", pc),
       ("clickContext", cc), ("hotspots", .listV hs)]) "id" = .ok idv := by rfl
  have h2 : pyGet (PyVal.dictV
      [("id", idv), ("type", .strV t), ("pageContext", pc),
       ("clickContext", cc), ("hotspots", .listV hs)]) "type" = .ok (.strV t) := by rfl
  have h3 : pyGet (PyVal.dictV
      [("id", idv), ("type", .strV t), ("pageContext", pc),
       ("clickContext", cc), ("hotspots", .listV hs)]) "pageContext" = .ok pc := by rfl
  have h4 : pyGet (PyVal.dictV
      [("id", idv), ("type", .strV t), ("pageContext", pc),
       ("clickContext", cc), ("hotspots", .listV hs)]) "clickContext" = .ok cc := by rfl
  have h5 : pyGet (PyVal.dictV
      [("id", idv), ("type", .strV t), ("pageContext", pc),
       ("clickContext", cc), ("hotspots", .listV hs)]) "hotspots" = .ok (.listV hs) := by rfl
  have hpt := pyGet_pyOr_emptyDict pc "title" hpc
  have hpu := pyGet_pyOr_emptyDict pc "url" hpc
  have hct := pyGet_pyOr_emptyDict cc "text" hcc
  have hcs := pyGet_pyOr_emptyDict cc "cssSelector" hcc
  have hcel := pyGet_pyOr_emptyDict cc "elementType" hcc
  unfold extract_steps
  rw [pyIter_pyOr_listV]
  unfold extract_steps_loop extract_steps_loop
  unfold step_item
  simp only [h1, h2, h3, h4, h5, htv, hpt, hpu, hct, hcs, hcel, bind,
    Except.bind, if_true, pyIter_pyOr_listV, hcl, pure, Except.pure]
  by_cases hcb : (pyOr cc (PyVal.dictV [])).truthy = true <;>
    simp only [hcb, if_true, if_false, Bool.false_eq_true, ite_false, ite_true] <;>
  by_cases hle : (spec_hotspot_labels hs).isEmpty = true <;>
    simp only [hle, if_true, if_false, Bool.false_eq_true, ite_false, ite_true] <;>
    refine ⟨_, rfl, ?_⟩ <;>
    simp [item_field, pyLookup, hle]

/-- Witness for C3 at the spec's own example: hotspots
`[{"label": "A"}, {"label": ""}, {"label": "B"}]` project to
`hotspotLabels = ["A", "B"]`. -/
theorem C3_hotspot_labels_projection_witness :
    extract_steps (.listV [PyVal.dictV
        [("id", .noneV), ("type", .strV "IMAGE"), ("pageContext", .noneV),
         ("clickContext", .noneV),
         ("hotspots", .listV [.dictV [("label", .strV "A")],
                              .dictV [("label", .strV "")],
                              .dictV [("label", .strV "B")]])]]) =
      .ok [.dictV [("id", .noneV), ("type", .strV "IMAGE"),
                   ("pageTitle", .noneV), ("pageUrl", .noneV),
                   ("hotspotLabels", .listV [.strV "A", .strV "B"])]]
    ∧ item_field (.dictV [("id", .noneV), ("type", .strV "IMAGE"),
                   ("pageTitle", .noneV), ("pageUrl", .noneV),
                   ("hotspotLabels", .listV [.strV "A", .strV "B"])])
        "hotspotLabels" = some (.listV [.strV "A", .strV "B"]) := by
  obtain ⟨item, hok, hfield⟩ := C3_hotspot_labels_projection "IMAGE"
    .noneV .noneV .noneV
    [.dictV [("label", .strV "A")], .dictV [("label", .strV "")],
     .dictV [("label", .strV "B")]]
    (Or.inl rfl) (Or.inl rfl) (Or.inl rfl)
  have hconc : extract_steps (.listV [PyVal.dictV
      [("id", .noneV), ("type", .strV "IMAGE"), ("pageContext", .noneV),
       ("clickContext", .noneV),
       ("hotspots", .listV [.dictV [("label", .strV "A")],
                            .dictV [("label", .strV "")],
                            .dictV [("label", .strV "B")]])]]) =
      .ok [PyVal.dictV [("id", .noneV), ("type", .strV "IMAGE"),
                  ("pageTitle", .noneV), ("pageUrl", .noneV),
                  ("hotspotLabels", .listV [.strV "A", .strV "B"])]] := rfl
  rw [hconc] at hok
  injection hok with h1
  injection h1 with h2 h3
  refine ⟨hconc, ?_⟩
  rw [← h2] at hfield
  rw [hfield]
  rfl

/- ### Step-list structure lemmas (for C9, C10, C2, C4) -/

/-- The loop of `extract_chapters` computes the spec's filter-then-project
chapter list, for step lists whose entries are all dicts. -/
theorem extract_chapters_loop_eq_spec (steps : List PyVal)
    (h : ∀ s ∈ steps, isDict s = true) :
    extract_chapters_loop steps = .ok (spec_chapters steps) := by
  induction steps with
  | nil => rfl
  | cons s rest ih =>
      have hs : isDict s = true := h s (List.mem_cons_self s rest)
      cases s with
      | dictV fs =>
          have ih2 := ih (fun x hx => h x (List.mem_cons_of_mem _ hx))
          unfold extract_chapters_loop
          simp only [pyGet, bind, Except.bind, ih2]
          by_cases hch : pyEqStr ((pyLookup fs "type").getD PyVal.noneV) "CHAPTER" = true <;>
            simp [hch, spec_chapters, List.filter_cons, dget, spec_chapter_entry, ih2]
      | noneV => simp [isDict] at hs
      | boolV b => simp [isDict] at hs
      | intV n => simp [isDict] at hs
      | strV s => simp [isDict] at hs
      | listV xs => simp [isDict] at hs

/-- When the loop of `extract_steps` succeeds, its output is related to the
input pointwise in order: the i-th item is the projection of the i-th
step. -/
theorem extract_steps_loop_forall2 (steps : List PyVal) (out : List PyVal)
    (h : extract_steps_loop steps = .ok out) :
    List.Forall₂ (fun s item => step_item s = .ok item) steps out := by
  induction steps generalizing out with
  | nil =>
      unfold extract_steps_loop at h
      injection h with h1
      rw [← h1]
      exact List.Forall₂.nil
  | cons s rest ih =>
      unfold extract_steps_loop at h
      cases hsi : step_item s with
      | error e => rw [hsi] at h; simp [bind, Except.bind] at h
      | ok item =>
          rw [hsi] at h
          cases hrest : extract_steps_loop rest with
          | error e => rw [hrest] at h; simp [bind, Except.bind] at h
          | ok r =>
              rw [hrest] at h
              simp only [bind, Except.bind] at h
              injection h with h1
              rw [← h1]
              exact List.Forall₂.cons hsi (ih r hrest)

/-- A step type that compares equal to IMAGE or VIDEO does not compare
equal to CHAPTER. -/
theorem pyEqStr_not_chapter (v : PyVal)
    (h : (pyEqStr v "IMAGE" || pyEqStr v "VIDEO") = true) :
    pyEqStr v "CHAPTER" = false := by
  cases v <;> simp [pyEqStr] at h ⊢
  rcases h with rfl | rfl <;> decide

/-- Shape of every successfully projected step item: it is a dict that
carries an `id` entry and a `type` entry, and when its type is CHAPTER it
carries no `clickText` entry. -/
theorem step_item_shape (s item : PyVal) (h : step_item s = .ok item) :
    (item_field item "id").isSome = true
    ∧ (item_field item "type").isSome = true
    ∧ isDict item = true
    ∧ (pyEqStr (dget item "type") "CHAPTER" = true →
        item_field item "clickText" = Option.none) := by
  cases s with
  | dictV fs =>
      unfold step_item at h
      simp only [pyGet, bind, Except.bind, pure, Except.pure] at h
      split at h
      case isTrue htv =>
        repeat' split at h
        all_goals try exact (Except.noConfusion h)
        all_goals (
          injection h with h2
          subst h2
          refine ⟨by simp [item_field, pyLookup], by simp [item_field, pyLookup],
                  by simp [isDict], ?_⟩
          intro hch
          simp only [dget, pyLookup] at hch
          simp [pyEqStr_not_chapter _ htv] at hch)
      case isFalse htv =>
        split at h
        all_goals (
          injection h with h2
          subst h2
          exact ⟨by simp [item_field, pyLookup], by simp [item_field, pyLookup],
                 by simp [isDict], fun _ => by simp [item_field, pyLookup]⟩)
  | noneV => simp [step_item, pyGet, bind, Except.bind] at h
  | boolV b => simp [step_item, pyGet, bind, Except.bind] at h
  | intV n => simp [step_item, pyGet, bind, Except.bind] at h
  | strV t => simp [step_item, pyGet, bind, Except.bind] at h
  | listV xs => simp [step_item, pyGet, bind, Except.bind] at h

/-- A right member of a pointwise-related pair of lists is related to some
left member. -/
theorem forall2_mem_right {α β : Type} {R : α → β → Prop} {l1 : List α}
    {l2 : List β} (h : List.Forall₂ R l1 l2) {b : β} (hb : b ∈ l2) :
    ∃ a, a ∈ l1 ∧ R a b := by
  induction h with
  | nil => cases hb
  | cons ha ht ih =>
      rcases List.mem_cons.mp hb with rfl | hb2
      · exact ⟨_, List.mem_cons_self _ _, ha⟩
      · obtain ⟨a, ha1, ha2⟩ := ih hb2
        exact ⟨a, List.mem_cons_of_mem _ ha1, ha2⟩

/- ### Claim C9 — ordering of the step and chapter lists -/

/-- C9: for a steps sequence of objects, the chapter list is exactly the
input-order subsequence of CHAPTER steps (spec-side `spec_chapters`), and
whenever the step list is produced it is pointwise the projection of the
input steps, in input order (one item per step, i-th from i-th). -/
theorem C9_step_and_chapter_order (steps : List PyVal)
    (h : ∀ s ∈ steps, isDict s = true) :
    extract_chapters (.listV steps) = .ok (spec_chapters steps)
    ∧ ∀ out, extract_steps (.listV steps) = .ok out →
        List.Forall₂ (fun s item => step_item s = .ok item) steps out := by
  constructor
  · unfold extract_chapters
    simp only [pyIter_pyOr_listV, bind, Except.bind]
    exact extract_chapters_loop_eq_spec steps h
  · intro out hout
    unfold extract_steps at hout
    simp only [pyIter_pyOr_listV, bind, Except.bind] at hout
    exact extract_steps_loop_forall2 steps out hout

/-- Witness for C9 on a three-step flow (chapter, image, chapter): the
chapter list keeps the two chapters in order, and the step list is the
in-order projection of all three steps. -/
theorem C9_step_and_chapter_order_witness :
    extract_chapters (.listV
      [.dictV [("id", .intV 1), ("type", .strV "CHAPTER"),
               ("title", .strV "Intro")],
       .dictV [("id", .intV 2), ("type", .strV "IMAGE")],
       .dictV [("id", .intV 3), ("type", .strV "CHAPTER"),
               ("title", .strV "End")]]) =
      .ok [.dictV [("id", .intV 1), ("title", .strV "Intro"),
                   ("subtitle", .noneV)],
           .dictV [("id", .intV 3), ("title", .strV "End"),
                   ("subtitle", .noneV)]]
    ∧ List.Forall₂ (fun s item => step_item s = .ok item)
        [.dictV [("id", .intV 1), ("type", .strV "CHAPTER"),
                 ("title", .strV "Intro")],
         .dictV [("id", .intV 2), ("type", .strV "IMAGE")],
         .dictV [("id", .intV 3), ("type", .strV "CHAPTER"),
                 ("title", .strV "End")]]
        [.dictV [("id", .intV 1), ("type", .strV "CHAPTER"),
                 ("title", .strV "Intro"), ("subtitle", .noneV)],
         .dictV [("id", .intV 2), ("type", .strV "IMAGE"),
                 ("pageTitle", .noneV), ("pageUrl", .noneV)],
         .dictV [("id", .intV 3), ("type", .strV "CHAPTER"),
                 ("title", .strV "End"), ("subtitle", .noneV)]] := by
  obtain ⟨h1, h2⟩ := C9_step_and_chapter_order
    [.dictV [("id", .intV 1), ("type", .strV "CHAPTER"),
             ("title", .strV "Intro")],
     .dictV [("id", .intV 2), ("type", .strV "IMAGE")],
     .dictV [("id", .intV 3), ("type", .strV "CHAPTER"),
             ("title", .strV "End")]]
    (by decide)
  exact ⟨h1.trans (by rfl), h2 _ (by rfl)⟩

/- ### Claim C10 — one summary per step, with id and type -/

/-- C10 counterexample: a steps sequence with a non-object entry makes
`extract_steps` raise (`"x".get(...)` is an `AttributeError`) instead of
emitting one summary for the entry. -/
theorem C10_nonobject_entry_raises :
    extract_steps (.listV [PyVal.strV "x"]) =
      .error "AttributeError: no attribute get (key id)" := by
  rfl

/-- C10 (amended): whenever `extract_steps` succeeds — in particular for
any steps sequence of objects with well-formed contexts — it emits exactly
one summary per input step, and every emitted summary carries both an `id`
and a `type` entry, whatever the step's type variant. -/
theorem C10_one_summary_per_step (steps out : List PyVal)
    (h : extract_steps (.listV steps) = .ok out) :
    out.length = steps.length
    ∧ ∀ item ∈ out, (item_field item "id").isSome = true
        ∧ (item_field item "type").isSome = true := by
  unfold extract_steps at h
  simp only [pyIter_pyOr_listV, bind, Except.bind] at h
  have hf := extract_steps_loop_forall2 steps out h
  constructor
  · exact hf.length_eq.symm
  · intro item hitem
    obtain ⟨s, _, hrel⟩ := forall2_mem_right hf hitem
    have hs := step_item_shape s item hrel
    exact ⟨hs.1, hs.2.1⟩

/-- Witness for C10 (amended) on a two-step sequence (one of an unknown
type variant, one chapter missing its id): two summaries, each carrying
`id` and `type`. -/
theorem C10_one_summary_per_step_witness :
    ([PyVal.dictV [("id", .noneV), ("type", .strV "TOUR")],
      PyVal.dictV [("id", .noneV), ("type", .strV "CHAPTER"),
                   ("title", .noneV), ("subtitle", .noneV)]].length = 2
      ∧ ∀ item ∈ [PyVal.dictV [("id", .noneV), ("type", .strV "TOUR")],
          PyVal.dictV [("id", .noneV), ("type", .strV "CHAPTER"),
                       ("title", .noneV), ("subtitle", .noneV)]],
          (item_field item "id").isSome = true
          ∧ (item_field item "type").isSome = true) := by
  have h := C10_one_summary_per_step
    [.dictV [("type", .strV "TOUR")], .dictV [("type", .strV "CHAPTER")]]
    [.dictV [("id", .noneV), ("type", .strV "TOUR")],
     .dictV [("id", .noneV), ("type", .strV "CHAPTER"),
             ("title", .noneV), ("subtitle", .noneV)]]
    (by rfl)
  exact ⟨h.1, h.2⟩

/- ### Claim C2 — `build_report` tolerance -/

/-- A context value (`pageContext` / `clickContext`) the projection can
consume: absent/falsy (defaulted to `{}`) or itself an object. -/
def ctx_ok (v : PyVal) : Bool := !v.truthy || isDict v

/-- A `hotspots` value the projection can consume: absent/falsy (defaulted
to `[]`) or iterable (list, string or dict). -/
def iter_ok : PyVal → Bool
  | .noneV => true
  | .boolV b => !b
  | .intV n => decide (n = 0)
  | .strV _ => true
  | .listV _ => true
  | .dictV _ => true

/-- A step entry `extract_steps` projects without raising: an object whose
context fields are absent or objects and whose hotspots are absent or
iterable. -/
def step_wf (s : PyVal) : Bool :=
  isDict s && ctx_ok (dget s "pageContext") && ctx_ok (dget s "clickContext")
    && iter_ok (dget s "hotspots")

/-- `ctx_ok` unpacked into the disjunction the projection lemmas use. -/
theorem ctx_ok_cases (v : PyVal) (h : ctx_ok v = true) :
    v.truthy = false ∨ ∃ fs, v = PyVal.dictV fs := by
  by_cases htr : v.truthy = true
  · cases v with
    | dictV fs => exact Or.inr ⟨fs, rfl⟩
    | noneV => simp [ctx_ok, isDict, htr] at h
    | boolV b => simp [ctx_ok, isDict, htr] at h
    | intV n => simp [ctx_ok, isDict, htr] at h
    | strV s => simp [ctx_ok, isDict, htr] at h
    | listV xs => simp [ctx_ok, isDict, htr] at h
  · exact Or.inl (by simpa using htr)

/-- An `iter_ok` hotspots value, defaulted to `[]`, iterates. -/
theorem iter_ok_pyIter (v : PyVal) (h : iter_ok v = true) :
    ∃ l, pyIter (pyOr v (.listV [])) = .ok l := by
  by_cases htr : v.truthy = true
  · cases v with
    | listV xs => exact ⟨xs, by simp [pyOr, htr, pyIter]⟩
    | strV s => exact ⟨s.toList.map (fun c => .strV (String.mk [c])),
        by simp [pyOr, htr, pyIter]⟩
    | dictV fs => exact ⟨fs.map (fun p => .strV p.1),
        by simp [pyOr, htr, pyIter]⟩
    | noneV => simp [PyVal.truthy] at htr
    | boolV b => simp [PyVal.truthy] at htr; simp [iter_ok, htr] at h
    | intV n => simp [PyVal.truthy] at htr; simp [iter_ok, htr] at h
  · have hor : pyOr v (.listV []) = .listV [] := by simp [pyOr, htr]
    exact ⟨[], by rw [hor]; rfl⟩

/-- A well-formed step is projected without raising. -/
theorem step_item_isOk (s : PyVal) (hwf : step_wf s = true) :
    ∃ item, step_item s = .ok item := by
  have hd : isDict s = true := by
    simp [step_wf] at hwf; exact hwf.1.1.1
  cases s with
  | dictV fs =>
      simp only [step_wf, Bool.and_eq_true] at hwf
      obtain ⟨⟨⟨_, hpc⟩, hcc⟩, hhs⟩ := hwf
      have hpc' := ctx_ok_cases _ hpc
      have hcc' := ctx_ok_cases _ hcc
      have hpt := pyGet_pyOr_emptyDict _ "title" hpc'
      have hpu := pyGet_pyOr_emptyDict _ "url" hpc'
      have hct := pyGet_pyOr_emptyDict _ "text" hcc'
      have hcs := pyGet_pyOr_emptyDict _ "cssSelector" hcc'
      have hcel := pyGet_pyOr_emptyDict _ "elementType" hcc'
      obtain ⟨hl, hIt⟩ := iter_ok_pyIter _ hhs
      simp only [dget] at hpt hpu hct hcs hcel
      simp only [dget] at hIt
      unfold step_item
      simp only [pyGet, bind, Except.bind, pure, Except.pure] at hpt hpu hct hcs hcel ⊢
      simp only [hpt, hpu, hct, hcs, hcel, hIt]
      by_cases h1 : (pyEqStr ((pyLookup fs "type").getD PyVal.noneV) "IMAGE"
          || pyEqStr ((pyLookup fs "type").getD PyVal.noneV) "VIDEO") = true
      · simp only [h1, ite_true]
        by_cases h2 : (pyOr ((pyLookup fs "clickContext").getD PyVal.noneV)
            (PyVal.dictV [])).truthy = true <;>
          simp only [h2, Bool.false_eq_true, ite_true, ite_false] <;>
          exact ⟨_, rfl⟩
      · rw [if_neg h1]
        by_cases h3 : pyEqStr ((pyLookup fs "type").getD PyVal.noneV) "CHAPTER" = true <;>
          simp only [h3, Bool.false_eq_true, ite_true, ite_false] <;>
          exact ⟨_, rfl⟩
  | noneV => simp [isDict] at hd
  | boolV b => simp [isDict] at hd
  | intV n => simp [isDict] at hd
  | strV t => simp [isDict] at hd
  | listV xs => simp [isDict] at hd

/-- The loop of `extract_steps` succeeds on a list of well-formed steps. -/
theorem extract_steps_loop_isOk (steps : List PyVal)
    (h : ∀ s ∈ steps, step_wf s = true) :
    ∃ out, extract_steps_loop steps = .ok out := by
  induction steps with
  | nil => exact ⟨[], rfl⟩
  | cons s rest ih =>
      obtain ⟨item, hitem⟩ := step_item_isOk s (h s (List.mem_cons_self s rest))
      obtain ⟨out, hout⟩ := ih (fun x hx => h x (List.mem_cons_of_mem _ hx))
      refine ⟨item :: out, ?_⟩
      unfold extract_steps_loop
      simp only [hitem, hout, bind, Except.bind]

/-- C2 (amended): `build_report` does not fail on a flow object whose
`steps` field is absent/falsy (then chapters and steps are empty) or a
list of well-formed step objects (objects whose context fields are absent
or objects and whose hotspots are absent or iterable); in particular a
step without `id` is tolerated.  A non-object entry in `steps` makes it
raise, contrary to the claim (see the counterexample). -/
theorem C2_build_report_tolerance (flow : PyVal) (hd : isDict flow = true)
    (hsteps : (dget flow "steps").truthy = false
      ∨ ∃ l, dget flow "steps" = .listV l ∧ ∀ s ∈ l, step_wf s = true) :
    (build_report flow).isOk = true
    ∧ ((dget flow "steps").truthy = false →
        ∀ m, extract_meta flow = .ok m →
          build_report flow = .ok (.dictV
            [("meta", m), ("chapters", .listV []), ("steps", .listV [])])) := by
  cases flow with
  | dictV fs =>
      obtain ⟨m0, hm⟩ : ∃ m, extract_meta (.dictV fs) = .ok m := ⟨_, rfl⟩
      rcases hsteps with hfal | ⟨l, hsv, hwfs⟩
      · simp only [dget] at hfal
        have hb : build_report (.dictV fs) = .ok (.dictV
            [("meta", m0), ("chapters", .listV []), ("steps", .listV [])]) := by
          unfold build_report
          simp only [pyGet, bind, Except.bind, pyOr, hfal, Bool.false_eq_true,
            ite_false, hm]
          rfl
        refine ⟨by rw [hb]; rfl, ?_⟩
        intro _ m hm2
        rw [hm] at hm2
        injection hm2 with h3
        rw [← h3]
        exact hb
      · simp only [dget] at hsv
        have hpor : pyOr (.listV l) (.listV []) = .listV l := by cases l <;> rfl
        have hdall : ∀ s ∈ l, isDict s = true := by
          intro s hs
          have hw := hwfs s hs
          simp [step_wf] at hw
          exact hw.1.1.1
        have hc : extract_chapters (.listV l) = .ok (spec_chapters l) := by
          unfold extract_chapters
          simp only [pyIter_pyOr_listV, bind, Except.bind]
          exact extract_chapters_loop_eq_spec l hdall
        obtain ⟨out, hout⟩ := extract_steps_loop_isOk l hwfs
        have hst : extract_steps (.listV l) = .ok out := by
          unfold extract_steps
          simp only [pyIter_pyOr_listV, bind, Except.bind]
          exact hout
        have hb : build_report (.dictV fs) = .ok (.dictV
            [("meta", m0), ("chapters", .listV (spec_chapters l)),
             ("steps", .listV out)]) := by
          unfold build_report
          simp only [pyGet, bind, Except.bind, hsv, hpor, hm, hc, hst]
        refine ⟨by rw [hb]; rfl, ?_⟩
        intro hfal m hm2
        simp only [dget, hsv] at hfal
        have hl : l = [] := by
          cases l with
          | nil => rfl
          | cons a t => simp [PyVal.truthy] at hfal
        subst hl
        have hout0 : extract_steps_loop ([] : List PyVal) = .ok [] := rfl
        rw [hout0] at hout
        injection hout with h4
        rw [hm] at hm2
        injection hm2 with h3
        rw [← h4] at hb
        rw [← h3]
        exact hb
  | noneV => simp [isDict] at hd
  | boolV b => simp [isDict] at hd
  | intV n => simp [isDict] at hd
  | strV t => simp [isDict] at hd
  | listV xs => simp [isDict] at hd

/-- C2 counterexample: a flow whose `steps` contains a non-object entry
makes `build_report` raise (an `AttributeError` from `s.get("type")` on a
string), instead of being tolerated. -/
theorem C2_nonobject_entry_not_tolerated :
    build_report (.dictV [("steps", .listV [PyVal.strV "oops"])]) =
      .error "AttributeError: no attribute get (key type)" := by
  rfl

/-- Witness for C2 (amended): a flow without `steps` yields the report with
empty chapter and step lists, and a flow whose single IMAGE step has no
`id` (and no contexts) is still built without failure. -/
theorem C2_build_report_tolerance_witness :
    build_report (.dictV [("name", .strV "F")]) = .ok (.dictV
      [("meta", .dictV [("name", .strV "F"), ("useCase", .noneV),
                        ("schemaVersion", .noneV), ("description", .noneV),
                        ("status", .noneV), ("created", .noneV)]),
       ("chapters", .listV []), ("steps", .listV [])])
    ∧ (build_report (.dictV
        [("steps", .listV [.dictV [("type", .strV "IMAGE")]])])).isOk = true := by
  constructor
  · exact (C2_build_report_tolerance (.dictV [("name", .strV "F")]) rfl
      (Or.inl rfl)).2 rfl _ rfl
  · exact (C2_build_report_tolerance (.dictV
      [("steps", .listV [.dictV [("type", .strV "IMAGE")]])]) rfl
      (Or.inr ⟨[.dictV [("type", .strV "IMAGE")]], rfl, by decide⟩)).1

/- ### Claim C4 — derived action lines and click texts -/

/-- A successful `extract_steps` emits only items that are themselves
successful per-step projections. -/
theorem extract_steps_items (v : PyVal) (out : List PyVal)
    (h : extract_steps v = .ok out) :
    ∀ item ∈ out, ∃ s, step_item s = .ok item := by
  unfold extract_steps at h
  cases hi : pyIter (pyOr v (.listV [])) with
  | error e => rw [hi] at h; simp [bind, Except.bind] at h
  | ok l =>
      rw [hi] at h
      simp only [bind, Except.bind] at h
      have hf := extract_steps_loop_forall2 l out h
      intro item hitem
      obtain ⟨s, _, hrel⟩ := forall2_mem_right hf hitem
      exact ⟨s, hrel⟩

/-- The loop of `derive_actions` computes, per step, the spec's display
line, and collects the spec's click-text sequence, for step lists whose
entries are dicts in which a CHAPTER-typed entry carries no truthy click
text (true of every projected step list). -/
theorem derive_actions_loop_spec (steps : List PyVal)
    (h : ∀ s ∈ steps, isDict s = true ∧
      (pyEqStr (dget s "type") "CHAPTER" = true →
        (dget s "clickText").truthy = false)) :
    derive_actions_loop steps =
      .ok (steps.map spec_display_line, spec_click_texts steps) := by
  induction steps with
  | nil => rfl
  | cons s rest ih =>
      obtain ⟨hd, hchap⟩ := h s (List.mem_cons_self s rest)
      have ih2 := ih (fun x hx => h x (List.mem_cons_of_mem _ hx))
      cases s with
      | dictV fs =>
          unfold derive_actions_loop
          simp only [pyGet, bind, Except.bind, ih2]
          simp only [dget] at hchap
          by_cases hb1 : (pyEqStr ((pyLookup fs "type").getD PyVal.noneV) "CHAPTER"
              && (pyOr ((pyLookup fs "pageTitle").getD PyVal.noneV)
                       ((pyLookup fs "title").getD PyVal.noneV)).truthy) = true
          · obtain ⟨hch, hti⟩ :
                pyEqStr ((pyLookup fs "type").getD PyVal.noneV) "CHAPTER" = true
                ∧ (pyOr ((pyLookup fs "pageTitle").getD PyVal.noneV)
                    ((pyLookup fs "title").getD PyVal.noneV)).truthy = true := by
              simpa using hb1
            simp [hb1, hch, hti, spec_display_line, spec_click_texts,
              List.filter_cons, dget, ih2]
          · by_cases hb2 : ((pyLookup fs "clickText").getD PyVal.noneV).truthy = true
            · have hnch : pyEqStr ((pyLookup fs "type").getD PyVal.noneV) "CHAPTER" = false := by
                by_cases hch : pyEqStr ((pyLookup fs "type").getD PyVal.noneV) "CHAPTER" = true
                · exact absurd hb2 (by simp [hchap hch])
                · simpa using hch
              simp [hb1, hb2, hnch, spec_display_line, spec_click_texts,
                List.filter_cons, dget, ih2]
            · simp [hb1, hb2, spec_display_line, spec_click_texts,
                List.filter_cons, dget, ih2]
      | noneV => simp [isDict] at hd
      | boolV b => simp [isDict] at hd
      | intV n => simp [isDict] at hd
      | strV t => simp [isDict] at hd
      | listV xs => simp [isDict] at hd

/-- C4: on every Report built by `build_report`, `derive_actions` returns
(a) one display string per projected step, formatted exactly as the spec's
`spec_display_line` cascade prescribes, and (b) the spec's ordered
click-text sequence `spec_click_texts`, which excludes chapter steps. -/
theorem C4_derive_actions (flow m : PyVal) (ch stepsOut : List PyVal)
    (hbr : build_report flow = .ok (.dictV
      [("meta", m), ("chapters", .listV ch), ("steps", .listV stepsOut)])) :
    derive_actions (.dictV
      [("meta", m), ("chapters", .listV ch), ("steps", .listV stepsOut)]) =
      .ok (stepsOut.map spec_display_line, spec_click_texts stepsOut) := by
  have hitems : ∀ item ∈ stepsOut, ∃ s, step_item s = .ok item := by
    unfold build_report at hbr
    cases hg : pyGet flow "steps" with
    | error e => rw [hg] at hbr; simp [bind, Except.bind] at hbr
    | ok sv =>
        rw [hg] at hbr
        simp only [bind, Except.bind] at hbr
        cases hme : extract_meta flow with
        | error e => rw [hme] at hbr; simp at hbr
        | ok m2 =>
            rw [hme] at hbr
            cases hce : extract_chapters (pyOr sv (.listV [])) with
            | error e => rw [hce] at hbr; simp at hbr
            | ok ch2 =>
                rw [hce] at hbr
                cases hse : extract_steps (pyOr sv (.listV [])) with
                | error e => rw [hse] at hbr; simp at hbr
                | ok so2 =>
                    rw [hse] at hbr
                    simp only [Except.ok.injEq, PyVal.dictV.injEq,
                      List.cons.injEq, Prod.mk.injEq] at hbr
                    have hso : so2 = stepsOut := by
                      have := hbr.2.2.1.2
                      injection this
                    rw [← hso]
                    exact extract_steps_items _ _ hse
  have hcond : ∀ s ∈ stepsOut, isDict s = true ∧
      (pyEqStr (dget s "type") "CHAPTER" = true →
        (dget s "clickText").truthy = false) := by
    intro item hitem
    obtain ⟨s, hrel⟩ := hitems item hitem
    have hs := step_item_shape s item hrel
    refine ⟨hs.2.2.1, fun hch => ?_⟩
    have hnone := hs.2.2.2 hch
    cases item with
    | dictV ifs =>
        simp only [item_field] at hnone
        simp only [dget, hnone, Option.getD]
        rfl
    | noneV => simp [isDict] at hs
    | boolV b => simp [isDict] at hs
    | intV n => simp [isDict] at hs
    | strV t2 => simp [isDict] at hs
    | listV xs => simp [isDict] at hs
  unfold derive_actions
  have hg2 : pyGet (PyVal.dictV
      [("meta", m), ("chapters", .listV ch), ("steps", .listV stepsOut)])
      "steps" = .ok (.listV stepsOut) := by rfl
  simp only [hg2, bind, Except.bind, pyIter_pyOr_listV]
  exact derive_actions_loop_spec stepsOut hcond

/-- Witness for C4 at the spec's §8 item 6 flow (name "Checkout Demo", one
CHAPTER step titled "Start", one IMAGE step clicking "Buy Now"): the
action lines are `["CHAPTER: Start", "IMAGE: Clicked Buy Now"]` and the
click texts `["Clicked Buy Now"]`. -/
theorem C4_derive_actions_witness :
    derive_actions (.dictV
      [("meta", .dictV [("name", .strV "Checkout Demo"), ("useCase", .noneV),
                        ("schemaVersion", .noneV), ("description", .noneV),
                        ("status", .noneV), ("created", .noneV)]),
       ("chapters", .listV [.dictV [("id", .noneV), ("title", .strV "Start"),
                                    ("subtitle", .noneV)]]),
       ("steps", .listV
         [.dictV [("id", .noneV), ("type", .strV "CHAPTER"),
                  ("title", .strV "Start"), ("subtitle", .noneV)],
          .dictV [("id", .noneV), ("type", .strV "IMAGE"),
                  ("pageTitle", .noneV), ("pageUrl", .noneV),
                  ("clickText", .strV "Clicked Buy Now"),
                  ("clickSelector", .noneV),
                  ("clickElementType", .noneV)]])]) =
      .ok (["CHAPTER: Start", "IMAGE: Clicked Buy Now"],
           [.strV "Clicked Buy Now"]) := by
  have h := C4_derive_actions
    (.dictV [("name", .strV "Checkout Demo"),
             ("steps", .listV
               [.dictV [("type", .strV "CHAPTER"), ("title", .strV "Start")],
                .dictV [("type", .strV "IMAGE"),
                        ("clickContext",
                         .dictV [("text", .strV "Clicked Buy Now")])]])])
    (.dictV [("name", .strV "Checkout Demo"), ("useCase", .noneV),
             ("schemaVersion", .noneV), ("description", .noneV),
             ("status", .noneV), ("created", .noneV)])
    [.dictV [("id", .noneV), ("title", .strV "Start"), ("subtitle", .noneV)]]
    [.dictV [("id", .noneV), ("type", .strV "CHAPTER"),
             ("title", .strV "Start"), ("subtitle", .noneV)],
     .dictV [("id", .noneV), ("type", .strV "IMAGE"),
             ("pageTitle", .noneV), ("pageUrl", .noneV),
             ("clickText", .strV "Clicked Buy Now"),
             ("clickSelector", .noneV), ("clickElementType", .noneV)]]
    (by rfl)
  rw [h]
  rfl

/- ### Claim C8 — empty external summary is an absent result -/

/-- C8: when the external text call succeeds but its content is empty or
whitespace-only (or `None`), `generate_openai_summary` returns the absent
result with the empty-summary diagnostic — never an empty-string success —
and the entry point then writes the placeholder narrative instead of the
summary. -/
theorem C8_empty_summary_is_absent (env : Env) (report : PyVal)
    (payload : String) (c : Option String)
    (hclient : env.clientAvailable = true)
    (hpay : summary_payload report = .ok payload)
    (hmiss : (if env.cacheEnabled then
        env.textCache (summary_cache_path payload) else Option.none) = Option.none)
    (hresp : env.chatResponse = .ok c)
    (hempty : pyStrip (orEmpty c) = "") :
    generate_openai_summary env report =
      ⟨Option.none, 1, Option.none,
       some "Error: received empty summary from OpenAI."⟩
    ∧ main_summary_text (generate_openai_summary env report).result =
        placeholder_summary := by
  have hmain : generate_openai_summary env report =
      ⟨Option.none, 1, Option.none,
       some "Error: received empty summary from OpenAI."⟩ := by
    unfold generate_openai_summary
    rw [hclient]
    simp only [Bool.true_eq_false, ite_false, hpay, hmiss, hresp, hempty, if_true]
  exact ⟨hmain, by rw [hmain]; rfl⟩

/-- Witness for C8: a whitespace-only external response (`"  \n "`) on a
cache-disabled run yields the absent result and the placeholder
narrative. -/
theorem C8_empty_summary_is_absent_witness :
    generate_openai_summary
      ⟨true, false, fun _ => Option.none, fun _ => Option.none,
       .ok (some "  \n "), .error "unused", fun _ _ => .error "unused"⟩
      (.dictV [("steps", .listV [])]) =
      ⟨Option.none, 1, Option.none,
       some "Error: received empty summary from OpenAI."⟩
    ∧ main_summary_text (generate_openai_summary
        ⟨true, false, fun _ => Option.none, fun _ => Option.none,
         .ok (some "  \n "), .error "unused", fun _ _ => .error "unused"⟩
        (.dictV [("steps", .listV [])])).result = placeholder_summary := by
  exact C8_empty_summary_is_absent _ _ "\n\ngpt-4o-mini" (some "  \n ")
    rfl rfl rfl rfl rfl

/- ### Claim C1 — cache hits suppress the external call -/

/-- C1 (amended): with the client configured and caching enabled, a
readable cache entry for the computed key suppresses the external call in
both generators.  The image generator copies the cached bytes to the
destination exactly and reports success; the narrative generator, however,
returns the entry's text `.strip()`ped — identical to the stored content
whenever the entry was written by the generator itself (it stores stripped
text), but not byte-for-byte for arbitrary entries (see the
counterexample). -/
theorem C1_cache_hit_no_external_call (env : Env) (report : PyVal)
    (out_path : String)
    (hclient : env.clientAvailable = true)
    (hcache : env.cacheEnabled = true) :
    (∀ payload content, summary_payload report = .ok payload →
      env.textCache (summary_cache_path payload) = some content →
      generate_openai_summary env report =
        ⟨some (pyStrip content), 0, Option.none, Option.none⟩)
    ∧ (∀ prompt bytes, image_prompt report = .ok prompt →
        env.binCache (image_cache_path prompt) = some bytes →
        generate_social_image env report out_path =
          ⟨true, 0, [], [(out_path, bytes)], Option.none⟩) := by
  constructor
  · intro payload content hpay hhit
    unfold generate_openai_summary
    rw [hclient]
    simp only [Bool.true_eq_false, ite_false, hpay, hcache, ite_true, hhit]
  · intro prompt bytes hpr hhit
    unfold generate_social_image
    rw [hclient]
    simp only [Bool.true_eq_false, ite_false, hpr, hcache, ite_true, hhit]

set_option maxRecDepth 100000 in
/-- C1 counterexample: an existing narrative cache entry whose stored
content is `" hi "` (with surrounding whitespace) is returned as `"hi"` —
not exactly the stored content, because the source does
`f.read().strip()` on the cache-hit path. -/
theorem C1_cached_text_is_stripped :
    (generate_openai_summary
      ⟨true, true,
       fun p => if p = summary_cache_path "\n\ngpt-4o-mini" then some " hi "
                else Option.none,
       fun _ => Option.none, .error "unused", .error "unused",
       fun _ _ => .error "unused"⟩
      (.dictV [("steps", .listV [])])).result ≠ some " hi " := by
  have hpay : summary_payload (.dictV [("steps", .listV [])]) =
      .ok "\n\ngpt-4o-mini" := by rfl
  unfold generate_openai_summary
  simp only [Bool.true_eq_false, ite_false, hpay, ite_true, eq_self_iff_true, if_true]
  intro h
  injection h with h1
  have : pyStrip " hi " = "hi" := by rfl
  rw [this] at h1
  exact absurd h1 (by decide)

/-- Witness for C1 (amended): a concrete run with both cache entries
present — the narrative comes back from the text cache (already-stripped
entry, returned unchanged) and the image bytes are copied to the
destination; neither generator makes an external call. -/
theorem C1_cache_hit_no_external_call_witness :
    generate_openai_summary
      ⟨true, true,
       fun p => if p = summary_cache_path "\n\ngpt-4o-mini" then some "hi"
                else Option.none,
       fun _ => some [7, 8], .error "unused", .error "unused",
       fun _ _ => .error "unused"⟩
      (.dictV [("steps", .listV [])]) =
      ⟨some "hi", 0, Option.none, Option.none⟩
    ∧ generate_social_image
        ⟨true, true,
         fun p => if p = summary_cache_path "\n\ngpt-4o-mini" then some "hi"
                  else Option.none,
         fun _ => some [7, 8], .error "unused", .error "unused",
         fun _ _ => .error "unused"⟩
        (.dictV [("steps", .listV [])]) "out/social.png" =
        ⟨true, 0, [], [("out/social.png", [7, 8])], Option.none⟩ := by
  obtain ⟨h1, h2⟩ := C1_cache_hit_no_external_call
    ⟨true, true,
     fun p => if p = summary_cache_path "\n\ngpt-4o-mini" then some "hi"
              else Option.none,
     fun _ => some [7, 8], .error "unused", .error "unused",
     fun _ _ => .error "unused"⟩
    (.dictV [("steps", .listV [])]) "out/social.png" rfl rfl
  constructor
  · have := h1 "\n\ngpt-4o-mini" "hi" (by rfl) (by simp)
    rw [this]
    rfl
  · exact h2 _ [7, 8] (by rfl) rfl

/- ### Claim C7 — tagged base64-or-URL image payload handling -/

/-- C7: on a cache miss with the client configured, the image generator
handles the tagged payload of the external response: inline base64 data is
decoded and its bytes are persisted to the destination with no HTTP fetch;
a URL-only payload triggers exactly one `requests.get` with a 30-second
timeout, fails on a 4xx/5xx status or a transport error, and on success
persists the fetched body bytes verbatim; with neither payload form the
distinct "no data" diagnostic is printed; and every failure is a `false`
result of the total outcome function, never a raised exception. -/
theorem C7_image_payload_handling (env : Env) (report : PyVal)
    (out_path : String) (prompt : String) (datum : ImageDatum)
    (hclient : env.clientAvailable = true)
    (hpr : image_prompt report = .ok prompt)
    (hmiss : (if env.cacheEnabled then
        env.binCache (image_cache_path prompt) else Option.none) = Option.none)
    (hresp : env.imageResponse = .ok datum) :
    (∀ b bytes, datum.b64_json = some b → b ≠ "" → pyB64decode b = .ok bytes →
      generate_social_image env report out_path =
        ⟨true, 1, [], (out_path, bytes) ::
           (if env.cacheEnabled then [(image_cache_path prompt, bytes)] else []),
         Option.none⟩)
    ∧ (∀ b e, datum.b64_json = some b → b ≠ "" → pyB64decode b = .error e →
        generate_social_image env report out_path =
          ⟨false, 1, [], [],
           some ("Error: failed to decode base64 image: " ++ e)⟩)
    ∧ (∀ url resp, orEmpty datum.b64_json = "" → datum.url = some url →
        url ≠ "" → env.http url 30 = .ok resp → resp.status < 400 →
        generate_social_image env report out_path =
          ⟨true, 1, [(url, 30)], (out_path, resp.body) ::
             (if env.cacheEnabled then [(image_cache_path prompt, resp.body)] else []),
           Option.none⟩)
    ∧ (∀ url resp, orEmpty datum.b64_json = "" → datum.url = some url →
        url ≠ "" → env.http url 30 = .ok resp → 400 ≤ resp.status →
        resp.status < 600 →
        (generate_social_image env report out_path).success = false
        ∧ (generate_social_image env report out_path).fetches = [(url, 30)]
        ∧ (generate_social_image env report out_path).writes = [])
    ∧ (∀ url e, orEmpty datum.b64_json = "" → datum.url = some url →
        url ≠ "" → env.http url 30 = .error e →
        generate_social_image env report out_path =
          ⟨false, 1, [(url, 30)], [],
           some ("Error: failed to download image: " ++ e)⟩)
    ∧ (orEmpty datum.b64_json = "" → orEmpty datum.url = "" →
        generate_social_image env report out_path =
          ⟨false, 1, [], [], some "Error: image generation returned no data."⟩) := by
  refine ⟨?_, ?_, ?_, ?_, ?_, ?_⟩
  · intro b bytes hb hne hdec
    unfold generate_social_image
    rw [hclient]
    simp only [Bool.true_eq_false, ite_false, hpr, hmiss, hresp, hb, orEmpty,
      Option.getD, hne, ite_true, hdec, ne_eq, not_false_iff]
  · intro b e hb hne hdec
    unfold generate_social_image
    rw [hclient]
    simp only [Bool.true_eq_false, ite_false, hpr, hmiss, hresp, hb, orEmpty,
      Option.getD, hne, ite_true, hdec, ne_eq, not_false_iff]
  · intro url resp hb0 hu hune hhttp hst
    have hst2 : ¬ 400 ≤ resp.status := Nat.not_le.mpr hst
    simp only [orEmpty, Option.getD] at hb0
    unfold generate_social_image
    rw [hclient]
    simp only [Bool.true_eq_false, ite_false, hpr, hmiss, hresp, hb0, hu,
      orEmpty, Option.getD, hune, hhttp, hst2, ne_eq, not_false_iff,
      not_true, ite_false, ite_true, decide_eq_true_eq, Bool.and_eq_true]
    simp [hst2]
  · intro url resp hb0 hu hune hhttp hge hlt
    simp only [orEmpty, Option.getD] at hb0
    have hmain : generate_social_image env report out_path =
        ⟨false, 1, [(url, 30)], [],
         some ("Error: failed to download image: HTTPError " ++
               toString resp.status)⟩ := by
      unfold generate_social_image
      rw [hclient]
      simp only [Bool.true_eq_false, ite_false, hpr, hmiss, hresp, hb0, hu,
        orEmpty, Option.getD, hune, hhttp, ne_eq, not_false_iff, ite_true]
      simp [hge, hlt]
    rw [hmain]
    exact ⟨rfl, rfl, rfl⟩
  · intro url e hb0 hu hune hhttp
    simp only [orEmpty, Option.getD] at hb0
    unfold generate_social_image
    rw [hclient]
    simp only [Bool.true_eq_false, ite_false, hpr, hmiss, hresp, hb0, hu,
      orEmpty, Option.getD, hune, hhttp, ne_eq, not_false_iff, ite_true]
    simp
  · intro hb0 hu0
    simp only [orEmpty, Option.getD] at hb0 hu0
    unfold generate_social_image
    rw [hclient]
    simp only [Bool.true_eq_false, ite_false, hpr, hmiss, hresp, orEmpty,
      Option.getD, hb0, hu0, ne_eq, ite_true]
    simp

/-- Witness for C7: a base64-only response (`"aGk="`, decoding to the two
bytes of `"hi"`) on a cache-disabled run writes exactly those bytes to the
destination, with one generation call and no HTTP fetch. -/
theorem C7_image_payload_handling_witness :
    generate_social_image
      ⟨true, false, fun _ => Option.none, fun _ => Option.none,
       .error "unused", .ok ⟨some "aGk=", Option.none⟩,
       fun _ _ => .error "unused"⟩
      (.dictV [("steps", .listV [])]) "out/social.png" =
      ⟨true, 1, [], [("out/social.png", [104, 105])], Option.none⟩ := by
  have h := (C7_image_payload_handling
    ⟨true, false, fun _ => Option.none, fun _ => Option.none,
     .error "unused", .ok ⟨some "aGk=", Option.none⟩,
     fun _ _ => .error "unused"⟩
    (.dictV [("steps", .listV [])]) "out/social.png"
    ("Create a vibrant, professional social media graphic for a product demo titled '"
       ++ "User Flow" ++ "'. "
       ++ "The visual should represent a compilation of actions like: "
       ++ "browsing and interacting" ++ ". "
       ++ "Use modern UI/UX design elements, clean layout, and engaging colors. "
       ++ "Style: matching the flow's theme, professional, tech-focused. No text overlay needed.")
    ⟨some "aGk=", Option.none⟩ rfl (by rfl) rfl rfl).1 "aGk=" [104, 105]
    rfl (by decide) (by rfl)
  rw [h]
  rfl
